import Mathlib

/-!
Verification development for the keystone password-reset subsystem
(packages-next/auth/src/gql/getPasswordResetSchema.ts), the mutation hooks
pipeline, and the admin-UI file generator
(packages-next/admin-ui/src/system/generateAdminUI.ts).

Timestamps are modelled as integers (an abstract clock in the same unit as
the `tokensValidForMins` validity window).  The identity store is a list of
items; `itemAPI.updateOne` is an in-place functional update by id.
-/

namespace Keystone

/-- Error codes of the `PasswordResetRedemptionErrorCode` GraphQL enum
(typeDefs of getPasswordResetSchema.ts). -/
inductive RedemptionErrorCode
  | FAILURE
  | IDENTITY_NOT_FOUND
  | MULTIPLE_IDENTITY_MATCHES
  | TOKEN_NOT_SET
  | TOKEN_MISMATCH
  | TOKEN_EXPIRED
  | TOKEN_REDEEMED
deriving DecidableEq, Repr

/-- Error codes of the `PasswordResetRequestErrorCode` GraphQL enum
(typeDefs of getPasswordResetSchema.ts). -/
inductive RequestErrorCode
  | IDENTITY_NOT_FOUND
  | MULTIPLE_IDENTITY_MATCHES
deriving DecidableEq, Repr

/-- An identity record (list item) carrying the identity field, the secret
field, and the three password-reset token slots
(`passwordResetToken` / `passwordResetIssuedAt` / `passwordResetRedeemedAt`). -/
structure Item where
  id : Nat
  identity : String
  secret : String
  passwordResetToken : Option String
  passwordResetIssuedAt : Option Int
  passwordResetRedeemedAt : Option Int
deriving DecidableEq, Repr

/-- The data objects passed to `itemAPI.updateOne` by the resolvers of
getPasswordResetSchema.ts: the token-issue triple written by
`sendItemPasswordResetLink` (lines 87-95), the `RedeemedAt` write of
`redeemItemPasswordResetToken` (lines 136-140), and its secret-field write
(lines 145-149). -/
inductive UpdateData
  | tokenIssue (token : String) (issuedAt : Int)
  | redeemedAtUpdate (redeemedAt : Int)
  | secretUpdate (secret : String)
deriving DecidableEq, Repr

/-- Application of one `updateOne` data object to one item. -/
def applyUpdate (it : Item) : UpdateData → Item
  | .tokenIssue tok t =>
      { it with passwordResetToken := some tok
                passwordResetIssuedAt := some t
                passwordResetRedeemedAt := none }
  | .redeemedAtUpdate t => { it with passwordResetRedeemedAt := some t }
  | .secretUpdate s => { it with secret := s }

/-- The `itemAPI.updateOne` storage call: updates the item with the given id. -/
def updateOne (store : List Item) (id : Nat) (d : UpdateData) : List Item :=
  store.map (fun it => if it.id = id then applyUpdate it d else it)

/-- Filtered lookup of the store by the identity field value, used to detect
zero, one or many matches. -/
def lookupIdentity (store : List Item) (identity : String) : List Item :=
  store.filter (fun it => it.identity = identity)

/-- Result of `validateAuthToken`: success carries the matched item, failure
carries one of the redemption error codes. -/
inductive AuthTokenValidation
  | success (item : Item)
  | failure (code : RedemptionErrorCode)
deriving DecidableEq, Repr

/-- Modelled from the spec: `validateAuthToken`
(packages-next/auth/src/lib/validateAuthToken.ts is not part of the
snapshot).  Per spec section 4.2: identity lookup fails with
`IDENTITY_NOT_FOUND` / `MULTIPLE_IDENTITY_MATCHES`, both collapsed to a
generic `FAILURE` when identity protection is enabled; with exactly one
match it fails with `TOKEN_NOT_SET` if no token was ever issued,
`TOKEN_REDEEMED` if `RedeemedAt` is non-null, `TOKEN_EXPIRED` if
`now - IssuedAt >= validityWindow`, `TOKEN_MISMATCH` if the presented token
does not match the stored token, and otherwise succeeds with the matched
item. -/
def validateAuthToken (store : List Item) (protectIdentities : Bool)
    (tokensValidForMins : Int) (now : Int) (identity token : String) :
    AuthTokenValidation :=
  match lookupIdentity store identity with
  | [] =>
      .failure (if protectIdentities then .FAILURE else .IDENTITY_NOT_FOUND)
  | [item] =>
      match item.passwordResetToken, item.passwordResetIssuedAt with
      | some stored, some issuedAt =>
          match item.passwordResetRedeemedAt with
          | some _ => .failure .TOKEN_REDEEMED
          | none =>
              if tokensValidForMins ≤ now - issuedAt then .failure .TOKEN_EXPIRED
              else if stored = token then .success item
              else .failure .TOKEN_MISMATCH
      | _, _ => .failure .TOKEN_NOT_SET
  | _ :: _ :: _ =>
      .failure (if protectIdentities then .FAILURE else .MULTIPLE_IDENTITY_MATCHES)

/-- Result of `createAuthToken`: success carries the matched item id and the
freshly generated token; failure carries an optional request error code
(the code is absent whenever identity protection is enabled, per the
resolver comment at getPasswordResetSchema.ts lines 71-72). -/
inductive CreateTokenResult
  | success (itemId : Nat) (token : String)
  | failure (code : Option RequestErrorCode)
deriving DecidableEq, Repr

/-- Modelled from the spec: `createAuthToken`
(packages-next/auth/src/lib/createAuthToken.ts is not part of the
snapshot).  Per spec section 4.2: look up the identity record; with
protection enabled a failed lookup produces no error code (the
caller-visible result is indistinguishable from the found case); with
protection disabled it reports `IDENTITY_NOT_FOUND` or
`MULTIPLE_IDENTITY_MATCHES`.  The generated random token is passed in
explicitly as `genToken`. -/
def createAuthToken (store : List Item) (protectIdentities : Bool)
    (identity genToken : String) : CreateTokenResult :=
  match lookupIdentity store identity with
  | [] =>
      .failure (if protectIdentities then none else some .IDENTITY_NOT_FOUND)
  | [item] => .success item.id genToken
  | _ :: _ :: _ =>
      .failure (if protectIdentities then none else some .MULTIPLE_IDENTITY_MATCHES)

/-- Admin UI display names of the list (`list.adminUILabels`). -/
structure AdminUILabels where
  singular : String
  plural : String
deriving DecidableEq, Repr

/-- Modelled from the spec: `getAuthTokenErrorMessage`
(packages-next/auth/src/lib/getErrorMessage.ts is not part of the
snapshot).  Each code maps to a fixed human-readable message incorporating
the list display names; the texts for `FAILURE`, `TOKEN_REDEEMED` and
`TOKEN_EXPIRED` are the ones quoted in the resolver comment at
getPasswordResetSchema.ts lines 121-123. -/
def getAuthTokenErrorMessage (labels : AdminUILabels) :
    RedemptionErrorCode → String
  | .FAILURE => "Auth token redemption failed."
  | .IDENTITY_NOT_FOUND =>
      "The " ++ labels.singular ++ " with the provided identity was not found."
  | .MULTIPLE_IDENTITY_MATCHES =>
      "Multiple " ++ labels.plural ++ " match the provided identity."
  | .TOKEN_NOT_SET =>
      "No auth token has been issued for this " ++ labels.singular ++ "."
  | .TOKEN_MISMATCH => "The auth token provided is incorrect."
  | .TOKEN_EXPIRED => "The auth token provided has expired."
  | .TOKEN_REDEEMED =>
      "Auth tokens are single use and the auth token provided has already been redeemed."

/-- Embedding of a `RequestErrorCode` into the redemption codes, used to
reuse the shared error-message function for the send-link mutation. -/
def RequestErrorCode.toRedemption : RequestErrorCode → RedemptionErrorCode
  | .IDENTITY_NOT_FOUND => .IDENTITY_NOT_FOUND
  | .MULTIPLE_IDENTITY_MATCHES => .MULTIPLE_IDENTITY_MATCHES

/-- A non-null GraphQL result of the send-link mutation: a code & message pair. -/
structure SendErrorResult where
  code : RequestErrorCode
  message : String
deriving DecidableEq, Repr

/-- A non-null GraphQL result of the validate / redeem operations. -/
structure ErrorResult where
  code : RedemptionErrorCode
  message : String
deriving DecidableEq, Repr

/-- Observable outcome of the `sendItemPasswordResetLink` resolver: the
GraphQL return value (none signals success), the post-call store, the list
of `updateOne` calls performed, and the `sendToken` callbacks fired. -/
structure SendResolverOutput where
  result : Option SendErrorResult
  store : List Item
  writes : List (Nat × UpdateData)
  sentLinks : List (Nat × String × String)
deriving DecidableEq, Repr

/-- The `sendItemPasswordResetLink` resolver
(getPasswordResetSchema.ts lines 63-100): run `createAuthToken`; if it
failed with a code, return the code & message; if it succeeded, write the
new token, `IssuedAt = now` and `RedeemedAt = null` back to the item with a
single `updateOne` call and fire the `sendToken` callback; return null. -/
def sendItemPasswordResetLink (store : List Item) (protectIdentities : Bool)
    (now : Int) (identity genToken : String) (labels : AdminUILabels) :
    SendResolverOutput :=
  match createAuthToken store protectIdentities identity genToken with
  | .failure (some c) =>
      { result := some ⟨c, getAuthTokenErrorMessage labels c.toRedemption⟩
        store := store
        writes := []
        sentLinks := [] }
  | .failure none =>
      { result := none, store := store, writes := [], sentLinks := [] }
  | .success itemId token =>
      { result := none
        store := updateOne store itemId (.tokenIssue token now)
        writes := [(itemId, .tokenIssue token now)]
        sentLinks := [(itemId, identity, token)] }

/-- Outcome of the `redeemItemPasswordResetToken` resolver as seen through
the GraphQL boundary: an error result, a null return (success), or an
exception thrown by the second (secret-field) `updateOne` call. -/
inductive RedeemOutcome
  | errorResult (e : ErrorResult)
  | nullResult
  | thrown
deriving DecidableEq, Repr

/-- Observable outcome of the `redeemItemPasswordResetToken` resolver:
the outcome, the post-call store, the `updateOne` calls invoked, and the
`updateOne` writes actually applied (a call that throws applies nothing). -/
structure RedeemResolverOutput where
  outcome : RedeemOutcome
  store : List Item
  calls : List (Nat × UpdateData)
  writes : List (Nat × UpdateData)
deriving DecidableEq, Repr

/-- The `redeemItemPasswordResetToken` resolver
(getPasswordResetSchema.ts lines 101-152): run `validateAuthToken`; on
failure return the code & message before any `updateOne` call; on success
first write `passwordResetRedeemedAt = now`, then, as a separate
independent step, write the supplied secret.  The environment's behaviour
of the second write — whose nested validation may fail — is made explicit
through the `secretUpdateOk` oracle: when it is false the second call
throws after the redeemed-at write has already been applied. -/
def redeemItemPasswordResetToken (store : List Item) (protectIdentities : Bool)
    (tokensValidForMins : Int) (now : Int) (identity token newSecret : String)
    (secretUpdateOk : Bool) (labels : AdminUILabels) : RedeemResolverOutput :=
  match validateAuthToken store protectIdentities tokensValidForMins now identity token with
  | .failure c =>
      { outcome := .errorResult ⟨c, getAuthTokenErrorMessage labels c⟩
        store := store
        calls := []
        writes := [] }
  | .success item =>
      let store1 := updateOne store item.id (.redeemedAtUpdate now)
      if secretUpdateOk then
        { outcome := .nullResult
          store := updateOne store1 item.id (.secretUpdate newSecret)
          calls := [(item.id, .redeemedAtUpdate now), (item.id, .secretUpdate newSecret)]
          writes := [(item.id, .redeemedAtUpdate now), (item.id, .secretUpdate newSecret)] }
      else
        { outcome := .thrown
          store := store1
          calls := [(item.id, .redeemedAtUpdate now), (item.id, .secretUpdate newSecret)]
          writes := [(item.id, .redeemedAtUpdate now)] }

/-- Observable outcome of the `validateItemPasswordResetToken` resolver:
the GraphQL return value, the (unchanged) store, and the (empty) list of
`updateOne` calls — the resolver body contains no storage call. -/
structure ValidateResolverOutput where
  result : Option ErrorResult
  store : List Item
  writes : List (Nat × UpdateData)
deriving DecidableEq, Repr

/-- The `validateItemPasswordResetToken` resolver
(getPasswordResetSchema.ts lines 155-184): run `validateAuthToken` and
return the code & message on failure, null on success; it performs no
storage write. -/
def validateItemPasswordResetToken (store : List Item) (protectIdentities : Bool)
    (tokensValidForMins : Int) (now : Int) (identity token : String)
    (labels : AdminUILabels) : ValidateResolverOutput :=
  match validateAuthToken store protectIdentities tokensValidForMins now identity token with
  | .failure c =>
      { result := some ⟨c, getAuthTokenErrorMessage labels c⟩
        store := store
        writes := [] }
  | .success _ =>
      { result := none, store := store, writes := [] }

/-- One subsequent caller operation on the same identity and purpose:
either a validate-token query or a redeem-token mutation, at an arbitrary
time, with an arbitrary presented token (and, for redeem, an arbitrary new
secret and secret-update environment behaviour). -/
inductive AuthOp
  | validateOp (now : Int) (token : String)
  | redeemOp (now : Int) (token newSecret : String) (secretUpdateOk : Bool)
deriving DecidableEq, Repr

/-- One step of the auth-token lifecycle: run the operation's resolver and
return the post-call store together with the error code surfaced to the
caller (none signals success). -/
def authOpStep (protectIdentities : Bool) (tokensValidForMins : Int)
    (identity : String) (labels : AdminUILabels) (store : List Item) :
    AuthOp → List Item × Option RedemptionErrorCode
  | .validateOp now token =>
      let out := validateItemPasswordResetToken store protectIdentities
        tokensValidForMins now identity token labels
      (out.store, out.result.map (fun e => e.code))
  | .redeemOp now token newSecret secretUpdateOk =>
      let out := redeemItemPasswordResetToken store protectIdentities
        tokensValidForMins now identity token newSecret secretUpdateOk labels
      (out.store,
        match out.outcome with
        | .errorResult e => some e.code
        | _ => none)

/-- Run a sequence of validate / redeem operations, threading the store and
collecting the error code surfaced by each operation. -/
def runAuthOps (protectIdentities : Bool) (tokensValidForMins : Int)
    (identity : String) (labels : AdminUILabels) :
    List Item → List AuthOp → List Item × List (Option RedemptionErrorCode)
  | store, [] => (store, [])
  | store, op :: ops =>
      let (store1, code) :=
        authOpStep protectIdentities tokensValidForMins identity labels store op
      let (storeF, codes) :=
        runAuthOps protectIdentities tokensValidForMins identity labels store1 ops
      (storeF, code :: codes)

/-- The store is in the terminal redeemed configuration for an identity:
the identity resolves to exactly one record whose token and issue
timestamp are set and whose `passwordResetRedeemedAt` is non-null. -/
def redeemedLocked (identity : String) (store : List Item) : Prop :=
  ∃ it tok t0 tr,
    lookupIdentity store identity = [it] ∧
    it.passwordResetToken = some tok ∧
    it.passwordResetIssuedAt = some t0 ∧
    it.passwordResetRedeemedAt = some tr

section HooksPipeline

/-- Events observable during one item's mutation pipeline run: hook
invocations of each stage and the persistence step.  The string names the
field a field-level hook belongs to. -/
inductive HookEvent
  | fieldValidateInput (field : String)
  | listValidateInput
  | fieldBeforeChange (field : String)
  | listBeforeChange
  | persist
  | fieldAfterChange (field : String)
  | listAfterChange
  | fieldValidateDelete (field : String)
  | listValidateDelete
  | fieldBeforeDelete (field : String)
  | listBeforeDelete
  | deletePersist
  | fieldAfterDelete (field : String)
  | listAfterDelete
deriving DecidableEq, Repr

/-- Resolved data: the staged per-mutation mapping from field name to value. -/
abbrev ResolvedData := List (String × String)

/-- Validation hooks of one list for create / update operations: per-field
`validateInput` hooks (each returning the messages it recorded through
`addFieldValidationError`) and the list-level `validateInput` hook
(messages recorded through `addValidationError`). -/
structure ChangeValidationCfg where
  fields : List (String × (ResolvedData → List String))
  listValidate : ResolvedData → List String

/-- Result of one item's pipeline run: either the persisted data or a
`ValidationFailureError` carrying all accumulated messages. -/
inductive PipelineResult
  | ok (persisted : ResolvedData)
  | validationFailure (messages : List String)

/-- Modelled from the spec: the field-level `validateInput` stage (the
mutation pipeline implementation is not part of the snapshot; spec
section 4.1 and docs-next/pages/apis/hooks.mdx).  Every field hook is
invoked; its recorded messages are accumulated in field order. -/
def runFieldValidate (fields : List (String × (ResolvedData → List String)))
    (d : ResolvedData) : List String × List HookEvent :=
  match fields with
  | [] => ([], [])
  | (name, hook) :: rest =>
      let (msgs, events) := runFieldValidate rest d
      (hook d ++ msgs, .fieldValidateInput name :: events)

/-- Modelled from the spec: all messages accumulated by the validation
stage — every field-level `validateInput` followed by the list-level
`validateInput` (spec section 4.1: any call of `addFieldValidationError` /
`addValidationError` accumulates a message). -/
def changeValidationMessages (cfg : ChangeValidationCfg) (d : ResolvedData) :
    List String :=
  (runFieldValidate cfg.fields d).1 ++ cfg.listValidate d

/-- Modelled from the spec: one item's create / update pipeline from the
validation stage on (spec section 4.1, hooks.mdx lines 125-131).  If one or
more validation messages were recorded the operation fails as a whole with
a `ValidationFailureError` carrying all accumulated messages and no
`beforeChange` / persistence / `afterChange` stage runs; otherwise the
side-effect stages and persistence run in order. -/
def runChangePipeline (cfg : ChangeValidationCfg) (d : ResolvedData) :
    PipelineResult × List HookEvent :=
  let valEvents := (runFieldValidate cfg.fields d).2 ++ [.listValidateInput]
  match changeValidationMessages cfg d with
  | [] =>
      (.ok d,
        valEvents
          ++ cfg.fields.map (fun f => .fieldBeforeChange f.1)
          ++ [.listBeforeChange, .persist]
          ++ cfg.fields.map (fun f => .fieldAfterChange f.1)
          ++ [.listAfterChange])
  | m :: ms => (.validationFailure (m :: ms), valEvents)

/-- Validation hooks of one list for delete operations: per-field
`validateDelete` hooks and the list-level `validateDelete` hook, each
returning the messages it recorded. -/
structure DeleteValidationCfg where
  fields : List (String × (Item → List String))
  listValidate : Item → List String

/-- Modelled from the spec: the field-level `validateDelete` stage. -/
def runFieldValidateDelete (fields : List (String × (Item → List String)))
    (it : Item) : List String × List HookEvent :=
  match fields with
  | [] => ([], [])
  | (name, hook) :: rest =>
      let (msgs, events) := runFieldValidateDelete rest it
      (hook it ++ msgs, .fieldValidateDelete name :: events)

/-- Modelled from the spec: all messages accumulated by the delete
validation stage. -/
def deleteValidationMessages (cfg : DeleteValidationCfg) (it : Item) :
    List String :=
  (runFieldValidateDelete cfg.fields it).1 ++ cfg.listValidate it

/-- Modelled from the spec: one item's delete pipeline from the validation
stage on (spec section 4.1: access control, then field and list
`validateDelete` with the same accumulate-and-abort-on-error contract,
then `beforeDelete`, persistence delete, `afterDelete`). -/
def runDeletePipeline (cfg : DeleteValidationCfg) (it : Item) :
    PipelineResult × List HookEvent :=
  let valEvents := (runFieldValidateDelete cfg.fields it).2 ++ [.listValidateDelete]
  match deleteValidationMessages cfg it with
  | [] =>
      (.ok [],
        valEvents
          ++ cfg.fields.map (fun f => .fieldBeforeDelete f.1)
          ++ [.listBeforeDelete, .deletePersist]
          ++ cfg.fields.map (fun f => .fieldAfterDelete f.1)
          ++ [.listAfterDelete])
  | m :: ms => (.validationFailure (m :: ms), valEvents)

end HooksPipeline

section AdminUIGenerator

/-- A filesystem path, represented as its list of components (the admin-UI
generator only manipulates separator-clean relative paths). -/
abbrev FsPath := List String

/-- The `Path.join` of the generator: concatenation of component lists. -/
def pathJoin (p q : FsPath) : FsPath := List.append p q

/-- Core of `Path.normalize` on component lists: drop empty and `.`
components and resolve `..` against the preceding component, keeping
leading `..` components of a relative path. -/
def normCore : List String → List String → List String
  | stack, [] => stack.reverse
  | stack, c :: rest =>
      if c = "." ∨ c = "" then normCore stack rest
      else if c = ".." then
        match stack with
        | [] => normCore [".."] rest
        | top :: s' =>
            if top = ".." then normCore (".." :: top :: s') rest
            else normCore s' rest
      else normCore (c :: stack) rest

/-- The `Path.normalize` of the generator, on component lists. -/
def pathNormalize (p : FsPath) : FsPath := normCore [] p

/-- A file descriptor handed to `writeAdminFile` (`AdminFileToWrite`): the
output path relative to the target directory, and the contents that end up
at that path (the `copy` / `write` mode distinction and the prettier
formatting pass only affect how the bytes are produced, not which path is
written, and are abstracted away). -/
structure AdminFile where
  outputPath : FsPath
  src : String
deriving DecidableEq, Repr

/-- A filesystem operation performed by `generateAdminUI`: the initial
recursive `fs.remove` of the target directory, or one file write
(`fs.outputFile` / `fs.copyFile`). -/
inductive FsOp
  | remove (path : FsPath)
  | outputFile (path : FsPath) (contents : String)
deriving DecidableEq, Repr

/-- Decides whether `p` lies at or below the directory `base`. -/
def underPath : FsPath → FsPath → Bool
  | [], _ => true
  | _ :: _, [] => false
  | b :: bs, c :: cs => b = c && underPath bs cs

/-- A filesystem state: contents by path. -/
def FsState := FsPath → Option String

/-- Semantics of one filesystem operation: `remove` deletes the path and
everything below it; `outputFile` creates or overwrites one file. -/
def applyOp (fs : FsState) : FsOp → FsState
  | .remove base => fun p => if underPath base p then none else fs p
  | .outputFile q c => fun p => if p = q then some c else fs p

/-- Left-to-right application of a list of filesystem operations. -/
def applyOps (fs : FsState) : List FsOp → FsState
  | [] => fs
  | op :: ops => applyOps (applyOp fs op) ops

/-- Contents of the stub written into `pages/` for a user page file
(generateAdminUI.ts lines 83-90): a re-export of the user's module. -/
def pageStubContents (filename : FsPath) : String :=
  "export \x7b default \x7d from " ++ String.intercalate "/" filename

/-- The filesystem operations performed by `generateAdminUI`
(generateAdminUI.ts lines 47-91), in order: (1) `fs.remove` of the target
directory; (2) one write per user-supplied file, at
`Path.join(projectAdminPath, outputPath)`, collecting the normalized full
output filenames into `uniqueFiles`; (3) one write per built-in framework
file whose normalized `outputPath` is not in `uniqueFiles` (the filter at
line 75); (4) one stub write under `pages/` per file found in the user's
`admin/pages` directory. -/
def generateAdminUITrace (projectAdminPath : FsPath)
    (userFiles frameworkFiles : List AdminFile)
    (userPageFiles : List FsPath) : List FsOp :=
  let savedFiles := userFiles.map
    (fun f => pathNormalize (pathJoin projectAdminPath f.outputPath))
  FsOp.remove projectAdminPath
    :: (userFiles.map
          (fun f => FsOp.outputFile (pathJoin projectAdminPath f.outputPath) f.src)
        ++ ((frameworkFiles.filter
              (fun f => ¬ savedFiles.contains (pathNormalize f.outputPath))).map
            (fun f => FsOp.outputFile (pathJoin projectAdminPath f.outputPath) f.src))
        ++ userPageFiles.map
            (fun f =>
              FsOp.outputFile (pathJoin projectAdminPath (pathJoin ["pages"] f))
                (pageStubContents f)))

end AdminUIGenerator

/-! Helper lemmas. -/

/-- An `updateOne` data object never changes the identity field. -/
theorem applyUpdate_identity (it : Item) (d : UpdateData) :
    (applyUpdate it d).identity = it.identity := by
  cases d <;> rfl

/-- An `updateOne` data object never changes the id. -/
theorem applyUpdate_id (it : Item) (d : UpdateData) :
    (applyUpdate it d).id = it.id := by
  cases d <;> rfl

/-- The per-item update step of `updateOne` never changes the identity field. -/
theorem updItem_identity (a : Item) (i : Nat) (d : UpdateData) :
    (if a.id = i then applyUpdate a d else a).identity = a.identity := by
  by_cases h : a.id = i <;> simp [h, applyUpdate_identity]

/-- Identity lookup after an `updateOne` call: the same matches, each
updated when its id matches. -/
theorem lookupIdentity_updateOne (store : List Item) (i : Nat) (d : UpdateData)
    (ident : String) :
    lookupIdentity (updateOne store i d) ident =
      (lookupIdentity store ident).map
        (fun it => if it.id = i then applyUpdate it d else it) := by
  induction store with
  | nil => rfl
  | cons a rest ih =>
      simp only [updateOne, List.map_cons, lookupIdentity, List.filter_cons] at *
      rw [updItem_identity]
      by_cases ha : a.identity = ident
      · simp [ha, ih]
      · simp [ha, ih]

/-- Inversion of a successful `validateAuthToken` run: the identity
resolves to exactly one record whose stored token equals the presented
token, whose issue timestamp is inside the validity window, and whose
`RedeemedAt` is null. -/
theorem validateAuthToken_success_elim (store : List Item) (protect : Bool)
    (v now : Int) (identity token : String) (item : Item)
    (h : validateAuthToken store protect v now identity token = .success item) :
    lookupIdentity store identity = [item] ∧
    item.passwordResetToken = some token ∧
    ∃ t0, item.passwordResetIssuedAt = some t0 ∧
      item.passwordResetRedeemedAt = none ∧ now - t0 < v := by
  unfold validateAuthToken at h
  split at h
  · simp at h
  next a hl =>
    split at h
    next stored t0 ht hi =>
      split at h
      next tr hr => simp at h
      next hr =>
        split at h
        next hexp => simp at h
        next hexp =>
          split at h
          next hmatch =>
            cases h
            exact ⟨hl, by rw [ht, hmatch], t0, hi, hr, by omega⟩
          next hmatch => simp at h
    next x y hxy => simp at h
  · simp at h

/-- In the terminal redeemed configuration every `validateAuthToken` run
returns `TOKEN_REDEEMED`, whatever the time and the presented token. -/
theorem redeemedLocked_validate (identity : String) (store : List Item)
    (protect : Bool) (v now : Int) (token : String)
    (hL : redeemedLocked identity store) :
    validateAuthToken store protect v now identity token =
      .failure .TOKEN_REDEEMED := by
  obtain ⟨it, tok, t0, tr, hl, ht, hi, hr⟩ := hL
  simp [validateAuthToken, hl, ht, hi, hr]

/-- In the terminal redeemed configuration the redeem resolver returns the
`TOKEN_REDEEMED` error and performs no storage call. -/
theorem redeemedLocked_redeem (identity : String) (store : List Item)
    (protect : Bool) (v now : Int) (token newSecret : String) (ok : Bool)
    (labels : AdminUILabels) (hL : redeemedLocked identity store) :
    redeemItemPasswordResetToken store protect v now identity token newSecret ok labels =
      { outcome := .errorResult
          ⟨.TOKEN_REDEEMED, getAuthTokenErrorMessage labels .TOKEN_REDEEMED⟩
        store := store
        calls := []
        writes := [] } := by
  simp [redeemItemPasswordResetToken,
    redeemedLocked_validate identity store protect v now token hL]

/-- In the terminal redeemed configuration every sequence of validate /
redeem operations surfaces `TOKEN_REDEEMED` at each step and leaves the
store unchanged. -/
theorem redeemedLocked_run (identity : String) (store : List Item)
    (protect : Bool) (v : Int) (labels : AdminUILabels)
    (hL : redeemedLocked identity store) :
    ∀ ops : List AuthOp,
      runAuthOps protect v identity labels store ops =
        (store, ops.map (fun _ => some RedemptionErrorCode.TOKEN_REDEEMED)) := by
  intro ops
  induction ops with
  | nil => rfl
  | cons op rest ih =>
      cases op with
      | validateOp now token =>
          simp [runAuthOps, authOpStep, validateItemPasswordResetToken,
            redeemedLocked_validate identity store protect v now token hL, ih]
      | redeemOp now token newSecret ok =>
          simp [runAuthOps, authOpStep,
            redeemedLocked_redeem identity store protect v now token newSecret ok labels hL,
            ih]

/-- The store reached by a successful redeem is in the terminal redeemed
configuration. -/
theorem redeem_reaches_locked (store : List Item) (protect : Bool)
    (v now : Int) (identity token newSecret : String) (ok : Bool)
    (labels : AdminUILabels) (item : Item)
    (h : validateAuthToken store protect v now identity token = .success item) :
    redeemedLocked identity
      (redeemItemPasswordResetToken store protect v now identity token newSecret ok labels).store := by
  obtain ⟨hl, ht, t0, hi, hr, hexp⟩ :=
    validateAuthToken_success_elim store protect v now identity token item h
  cases ok with
  | false =>
      refine ⟨applyUpdate item (.redeemedAtUpdate now), token, t0, now, ?_, ?_, ?_, ?_⟩
      · simp [redeemItemPasswordResetToken, h, lookupIdentity_updateOne, hl]
      · simp [applyUpdate, ht]
      · simp [applyUpdate, hi]
      · simp [applyUpdate]
  | true =>
      refine ⟨applyUpdate (applyUpdate item (.redeemedAtUpdate now)) (.secretUpdate newSecret),
        token, t0, now, ?_, ?_, ?_, ?_⟩
      · simp [redeemItemPasswordResetToken, h, lookupIdentity_updateOne, hl,
          applyUpdate_id]
      · simp [applyUpdate, ht]
      · simp [applyUpdate, hi]
      · simp [applyUpdate]

/-- C1: auth tokens are single-use.  After a successful redeem (one whose
token validation succeeded, which is what sets the purpose's `RedeemedAt`
field), every subsequent validate or redeem call for the same identity and
purpose surfaces the code `TOKEN_REDEEMED` and never succeeds again, and
the store never changes: the redeemed state is terminal. -/
theorem redeem_single_use (store : List Item) (protect : Bool)
    (v now : Int) (identity token newSecret : String) (ok : Bool)
    (labels : AdminUILabels) (item : Item)
    (h : validateAuthToken store protect v now identity token = .success item) :
    ∀ ops : List AuthOp,
      runAuthOps protect v identity labels
          (redeemItemPasswordResetToken store protect v now identity token newSecret ok labels).store
          ops =
        ((redeemItemPasswordResetToken store protect v now identity token newSecret ok labels).store,
          ops.map (fun _ => some RedemptionErrorCode.TOKEN_REDEEMED)) :=
  redeemedLocked_run identity _ protect v labels
    (redeem_reaches_locked store protect v now identity token newSecret ok labels item h)

/-- Witness for C1 at a concrete store: issue state with token "tok",
redeem it at time 10, then observe that a validate and a further redeem
both surface `TOKEN_REDEEMED` and leave the store unchanged. -/
theorem redeem_single_use_witness :
    validateAuthToken [⟨1, "a@x.com", "pw", some "tok", some 0, none⟩] true 60 10
        "a@x.com" "tok" =
      .success ⟨1, "a@x.com", "pw", some "tok", some 0, none⟩ ∧
    runAuthOps true 60 "a@x.com" ⟨"user", "users"⟩
        (redeemItemPasswordResetToken [⟨1, "a@x.com", "pw", some "tok", some 0, none⟩]
          true 60 10 "a@x.com" "tok" "hunter2" true ⟨"user", "users"⟩).store
        [AuthOp.validateOp 20 "tok", AuthOp.redeemOp 30 "tok" "other" true] =
      ((redeemItemPasswordResetToken [⟨1, "a@x.com", "pw", some "tok", some 0, none⟩]
          true 60 10 "a@x.com" "tok" "hunter2" true ⟨"user", "users"⟩).store,
        [some RedemptionErrorCode.TOKEN_REDEEMED, some RedemptionErrorCode.TOKEN_REDEEMED]) :=
  ⟨by decide,
    redeem_single_use [⟨1, "a@x.com", "pw", some "tok", some 0, none⟩] true 60 10
      "a@x.com" "tok" "hunter2" true ⟨"user", "users"⟩
      ⟨1, "a@x.com", "pw", some "tok", some 0, none⟩ (by decide)
      [AuthOp.validateOp 20 "tok", AuthOp.redeemOp 30 "tok" "other" true]⟩

/-- An item of the store after an `updateOne` write of `RedeemedAt` has its
`passwordResetRedeemedAt` set whenever its id is the written one. -/
theorem mem_updateOne_redeemedAt (store : List Item) (i : Nat) (t : Int)
    (it : Item) (hmem : it ∈ updateOne store i (.redeemedAtUpdate t))
    (hid : it.id = i) : it.passwordResetRedeemedAt = some t := by
  simp only [updateOne, List.mem_map] at hmem
  obtain ⟨it0, -, hit⟩ := hmem
  by_cases h0 : it0.id = i
  · rw [if_pos h0] at hit
    rw [← hit]
    rfl
  · rw [if_neg h0] at hit
    rw [← hit] at hid
    exact absurd hid h0

/-- C2: a successful redeem invokes exactly two independent `updateOne`
calls in order — first the write setting `passwordResetRedeemedAt` to the
current time, then the write of the supplied new secret.  When the
environment makes the secret write fail, only the first write is applied
and the matched record is nevertheless marked redeemed. -/
theorem redeem_two_writes (store : List Item) (protect : Bool)
    (v now : Int) (identity token newSecret : String) (ok : Bool)
    (labels : AdminUILabels) (item : Item)
    (h : validateAuthToken store protect v now identity token = .success item) :
    (redeemItemPasswordResetToken store protect v now identity token newSecret ok labels).calls =
      [(item.id, .redeemedAtUpdate now), (item.id, .secretUpdate newSecret)] ∧
    (ok = true →
      (redeemItemPasswordResetToken store protect v now identity token newSecret ok labels).writes =
        [(item.id, .redeemedAtUpdate now), (item.id, .secretUpdate newSecret)]) ∧
    (ok = false →
      (redeemItemPasswordResetToken store protect v now identity token newSecret ok labels).writes =
        [(item.id, .redeemedAtUpdate now)] ∧
      ∀ it ∈ (redeemItemPasswordResetToken store protect v now identity token newSecret ok labels).store,
        it.id = item.id → it.passwordResetRedeemedAt = some now) := by
  cases ok with
  | true => simp [redeemItemPasswordResetToken, h]
  | false =>
      refine ⟨by simp [redeemItemPasswordResetToken, h], by simp, fun _ => ⟨?_, ?_⟩⟩
      · simp [redeemItemPasswordResetToken, h]
      · intro it hmem hid
        simp only [redeemItemPasswordResetToken, h] at hmem
        exact mem_updateOne_redeemedAt store item.id now it hmem hid

/-- Witness for C2 at a concrete store: with the secret update failing, the
two calls are made in order, only the first is applied, and the record is
marked redeemed. -/
theorem redeem_two_writes_witness :
    (redeemItemPasswordResetToken [⟨1, "a@x.com", "pw", some "tok", some 0, none⟩]
        false 60 10 "a@x.com" "tok" "hunter2" false ⟨"user", "users"⟩).calls =
      [(1, .redeemedAtUpdate 10), (1, .secretUpdate "hunter2")] ∧
    (redeemItemPasswordResetToken [⟨1, "a@x.com", "pw", some "tok", some 0, none⟩]
        false 60 10 "a@x.com" "tok" "hunter2" false ⟨"user", "users"⟩).writes =
      [(1, .redeemedAtUpdate 10)] := by
  have h := redeem_two_writes [⟨1, "a@x.com", "pw", some "tok", some 0, none⟩]
    false 60 10 "a@x.com" "tok" "hunter2" false ⟨"user", "users"⟩
    ⟨1, "a@x.com", "pw", some "tok", some 0, none⟩ (by decide)
  exact ⟨h.1, (h.2.2 rfl).1⟩

/-- C10: the validate-token query performs no storage write at all, and the
redeem-token mutation performs none on any failure path: when token
validation fails the resolver returns the error result before any
`updateOne` call and the store is unchanged. -/
theorem no_write_on_failure (store : List Item) (protect : Bool)
    (v now : Int) (identity token newSecret : String) (ok : Bool)
    (labels : AdminUILabels) (c : RedemptionErrorCode) :
    (validateItemPasswordResetToken store protect v now identity token labels).store = store ∧
    (validateItemPasswordResetToken store protect v now identity token labels).writes = [] ∧
    (validateAuthToken store protect v now identity token = .failure c →
      (redeemItemPasswordResetToken store protect v now identity token newSecret ok labels).outcome =
        .errorResult ⟨c, getAuthTokenErrorMessage labels c⟩ ∧
      (redeemItemPasswordResetToken store protect v now identity token newSecret ok labels).store = store ∧
      (redeemItemPasswordResetToken store protect v now identity token newSecret ok labels).calls = [] ∧
      (redeemItemPasswordResetToken store protect v now identity token newSecret ok labels).writes = []) := by
  refine ⟨?_, ?_, fun h => ?_⟩
  · cases hv : validateAuthToken store protect v now identity token <;>
      simp [validateItemPasswordResetToken, hv]
  · cases hv : validateAuthToken store protect v now identity token <;>
      simp [validateItemPasswordResetToken, hv]
  · simp [redeemItemPasswordResetToken, h]

/-- Witness for C10 at a concrete store: an expired token makes the redeem
mutation return the `TOKEN_EXPIRED` error and leaves the store untouched. -/
theorem no_write_on_failure_witness :
    (redeemItemPasswordResetToken [⟨1, "a@x.com", "pw", some "tok", some 0, none⟩]
        true 60 100 "a@x.com" "tok" "hunter2" true ⟨"user", "users"⟩).store =
      [⟨1, "a@x.com", "pw", some "tok", some 0, none⟩] ∧
    (redeemItemPasswordResetToken [⟨1, "a@x.com", "pw", some "tok", some 0, none⟩]
        true 60 100 "a@x.com" "tok" "hunter2" true ⟨"user", "users"⟩).writes = [] :=
  ⟨((no_write_on_failure [⟨1, "a@x.com", "pw", some "tok", some 0, none⟩]
      true 60 100 "a@x.com" "tok" "hunter2" true ⟨"user", "users"⟩
      .TOKEN_EXPIRED).2.2 (by decide)).2.1,
   ((no_write_on_failure [⟨1, "a@x.com", "pw", some "tok", some 0, none⟩]
      true 60 100 "a@x.com" "tok" "hunter2" true ⟨"user", "users"⟩
      .TOKEN_EXPIRED).2.2 (by decide)).2.2.2⟩

/-- C3: with identity protection enabled, the caller-visible result of the
send-link mutation is the same whether the identity record exists or not —
in both cases the resolver returns null, and no code or message is ever
populated. -/
theorem send_link_identity_protection (store1 store2 : List Item)
    (now : Int) (identity genToken : String) (labels : AdminUILabels)
    (item : Item)
    (h1 : lookupIdentity store1 identity = [])
    (h2 : lookupIdentity store2 identity = [item]) :
    (sendItemPasswordResetLink store1 true now identity genToken labels).result =
      (sendItemPasswordResetLink store2 true now identity genToken labels).result ∧
    (sendItemPasswordResetLink store1 true now identity genToken labels).result = none := by
  constructor <;> simp [sendItemPasswordResetLink, createAuthToken, h1, h2]

/-- Witness for C3: an empty store and a one-item store give the same null
result under identity protection. -/
theorem send_link_identity_protection_witness :
    (sendItemPasswordResetLink [] true 5 "a@x.com" "tok" ⟨"user", "users"⟩).result =
      (sendItemPasswordResetLink [⟨1, "a@x.com", "pw", none, none, none⟩] true 5
        "a@x.com" "tok" ⟨"user", "users"⟩).result ∧
    (sendItemPasswordResetLink [] true 5 "a@x.com" "tok" ⟨"user", "users"⟩).result = none :=
  send_link_identity_protection [] [⟨1, "a@x.com", "pw", none, none, none⟩] 5
    "a@x.com" "tok" ⟨"user", "users"⟩ ⟨1, "a@x.com", "pw", none, none, none⟩
    (by decide) (by decide)

/-- C5: a successful issue overwrites any prior token state of the matched
record: afterwards `passwordResetToken` is the newly generated token,
`passwordResetIssuedAt` is the current time and `passwordResetRedeemedAt`
is null, whatever the three fields held before, and the mutation returns
null. -/
theorem send_link_overwrites_token_state (store : List Item) (protect : Bool)
    (now : Int) (identity genToken : String) (labels : AdminUILabels)
    (item : Item) (hl : lookupIdentity store identity = [item]) :
    (sendItemPasswordResetLink store protect now identity genToken labels).result = none ∧
    lookupIdentity
        (sendItemPasswordResetLink store protect now identity genToken labels).store
        identity =
      [{ item with passwordResetToken := some genToken
                   passwordResetIssuedAt := some now
                   passwordResetRedeemedAt := none }] := by
  constructor
  · simp [sendItemPasswordResetLink, createAuthToken, hl]
  · simp [sendItemPasswordResetLink, createAuthToken, hl,
      lookupIdentity_updateOne, applyUpdate]

/-- Witness for C5: issuing over a previously redeemed token state resets
all three slots. -/
theorem send_link_overwrites_token_state_witness :
    (sendItemPasswordResetLink [⟨1, "a@x.com", "pw", some "old", some 0, some 3⟩]
        false 50 "a@x.com" "fresh" ⟨"user", "users"⟩).result = none ∧
    lookupIdentity
        (sendItemPasswordResetLink [⟨1, "a@x.com", "pw", some "old", some 0, some 3⟩]
          false 50 "a@x.com" "fresh" ⟨"user", "users"⟩).store "a@x.com" =
      [⟨1, "a@x.com", "pw", some "fresh", some 50, none⟩] :=
  send_link_overwrites_token_state [⟨1, "a@x.com", "pw", some "old", some 0, some 3⟩]
    false 50 "a@x.com" "fresh" ⟨"user", "users"⟩
    ⟨1, "a@x.com", "pw", some "old", some 0, some 3⟩ (by decide)

/-- C6: for an identity with an issued, unredeemed token, validating
strictly inside the validity window with the matching token succeeds, and
validating at or after `issuedAt + validityWindow` returns `TOKEN_EXPIRED`
(whatever token is presented). -/
theorem validate_expiry_boundary (store : List Item) (protect : Bool)
    (v now : Int) (identity tok presented : String) (t0 : Int) (item : Item)
    (hl : lookupIdentity store identity = [item])
    (ht : item.passwordResetToken = some tok)
    (hi : item.passwordResetIssuedAt = some t0)
    (hr : item.passwordResetRedeemedAt = none) :
    (now - t0 < v →
      validateAuthToken store protect v now identity tok = .success item) ∧
    (now - t0 ≥ v →
      validateAuthToken store protect v now identity presented =
        .failure .TOKEN_EXPIRED) := by
  constructor
  · intro hlt
    simp [validateAuthToken, hl, ht, hi, hr, not_le.mpr hlt]
  · intro hge
    simp [validateAuthToken, hl, ht, hi, hr, hge]

/-- Witness for C6: a token issued at time 0 with a 60-minute window
validates at time 59 and is expired at time 60. -/
theorem validate_expiry_boundary_witness :
    validateAuthToken [⟨1, "a@x.com", "pw", some "tok", some 0, none⟩] true 60 59
        "a@x.com" "tok" =
      .success ⟨1, "a@x.com", "pw", some "tok", some 0, none⟩ ∧
    validateAuthToken [⟨1, "a@x.com", "pw", some "tok", some 0, none⟩] true 60 60
        "a@x.com" "tok" =
      .failure .TOKEN_EXPIRED :=
  ⟨(validate_expiry_boundary [⟨1, "a@x.com", "pw", some "tok", some 0, none⟩] true 60 59
      "a@x.com" "tok" "tok" 0 ⟨1, "a@x.com", "pw", some "tok", some 0, none⟩
      (by decide) (by decide) (by decide) (by decide)).1 (by decide),
   (validate_expiry_boundary [⟨1, "a@x.com", "pw", some "tok", some 0, none⟩] true 60 60
      "a@x.com" "tok" "tok" 0 ⟨1, "a@x.com", "pw", some "tok", some 0, none⟩
      (by decide) (by decide) (by decide) (by decide)).2 (by decide)⟩

/-- C4: every resolver of the password-reset schema returns null exactly on
(caller-visible) success and a non-null code & message object exactly on an
expected auth-flow failure; expected failures are returned as values, never
thrown — the only throwing path of the redeem mutation is the post-success
secret update. -/
theorem resolver_null_iff_success (store : List Item) (protect : Bool)
    (v now : Int) (identity genToken token newSecret : String) (ok : Bool)
    (labels : AdminUILabels) :
    ((sendItemPasswordResetLink store protect now identity genToken labels).result = none ↔
      (protect = true ∨ (lookupIdentity store identity).length = 1)) ∧
    (∀ e, (sendItemPasswordResetLink store protect now identity genToken labels).result = some e →
      protect = false ∧
      createAuthToken store protect identity genToken = .failure (some e.code) ∧
      e.message = getAuthTokenErrorMessage labels e.code.toRedemption) ∧
    ((validateItemPasswordResetToken store protect v now identity token labels).result = none ↔
      ∃ it, validateAuthToken store protect v now identity token = .success it) ∧
    (∀ e, (validateItemPasswordResetToken store protect v now identity token labels).result = some e →
      validateAuthToken store protect v now identity token = .failure e.code ∧
      e.message = getAuthTokenErrorMessage labels e.code) ∧
    (((redeemItemPasswordResetToken store protect v now identity token newSecret ok labels).outcome = .nullResult ∨
      (redeemItemPasswordResetToken store protect v now identity token newSecret ok labels).outcome = .thrown) ↔
      ∃ it, validateAuthToken store protect v now identity token = .success it) ∧
    (∀ e, (redeemItemPasswordResetToken store protect v now identity token newSecret ok labels).outcome = .errorResult e →
      validateAuthToken store protect v now identity token = .failure e.code ∧
      e.message = getAuthTokenErrorMessage labels e.code) ∧
    ((redeemItemPasswordResetToken store protect v now identity token newSecret ok labels).outcome = .thrown →
      ok = false ∧
      ∃ it, validateAuthToken store protect v now identity token = .success it) := by
  refine ⟨?_, ?_, ?_, ?_, ?_, ?_, ?_⟩
  · rcases hl : lookupIdentity store identity with - | ⟨a, - | ⟨b, rest⟩⟩ <;>
      cases protect <;>
      simp [sendItemPasswordResetLink, createAuthToken, hl]
  · intro e
    rcases hl : lookupIdentity store identity with - | ⟨a, - | ⟨b, rest⟩⟩ <;>
      cases protect <;>
      simp [sendItemPasswordResetLink, createAuthToken, hl] <;> rintro rfl <;> simp
  · cases hv : validateAuthToken store protect v now identity token <;>
      simp [validateItemPasswordResetToken, hv]
  · intro e
    cases hv : validateAuthToken store protect v now identity token <;>
      simp [validateItemPasswordResetToken, hv] <;> rintro rfl <;> simp
  · cases hv : validateAuthToken store protect v now identity token <;>
      cases ok <;> simp [redeemItemPasswordResetToken, hv]
  · intro e
    cases hv : validateAuthToken store protect v now identity token <;>
      cases ok <;> simp [redeemItemPasswordResetToken, hv] <;> rintro rfl <;> simp
  · cases hv : validateAuthToken store protect v now identity token <;>
      cases ok <;> simp [redeemItemPasswordResetToken, hv]

/-- Witness for C4: with identity protection disabled and an empty store,
the send-link mutation returns the populated `IDENTITY_NOT_FOUND` error
pair, and a successful validation yields a null result. -/
theorem resolver_null_iff_success_witness :
    (sendItemPasswordResetLink [] false 5 "a@x.com" "tok" ⟨"user", "users"⟩).result ≠ none ∧
    (validateItemPasswordResetToken [⟨1, "a@x.com", "pw", some "tok", some 0, none⟩]
        true 60 10 "a@x.com" "tok" ⟨"user", "users"⟩).result = none :=
  ⟨fun hnone =>
    (by decide :
      ¬((false : Bool) = true ∨
        (lookupIdentity ([] : List Item) "a@x.com").length = 1))
      ((resolver_null_iff_success [] false 60 5 "a@x.com" "tok" "tok" "s" true
        ⟨"user", "users"⟩).1.mp hnone),
   (resolver_null_iff_success [⟨1, "a@x.com", "pw", some "tok", some 0, none⟩]
      true 60 10 "a@x.com" "tok" "tok" "s" true ⟨"user", "users"⟩).2.2.1.mpr
    ⟨⟨1, "a@x.com", "pw", some "tok", some 0, none⟩, by decide⟩⟩

/-- When some field `validateInput` hook records a message, the field
validation stage accumulates a non-empty message list. -/
theorem runFieldValidate_ne_nil (fields : List (String × (ResolvedData → List String)))
    (d : ResolvedData) (p : String × (ResolvedData → List String))
    (hp : p ∈ fields) (hne : p.2 d ≠ []) :
    (runFieldValidate fields d).1 ≠ [] := by
  induction fields with
  | nil => cases hp
  | cons q rest ih =>
      rcases List.mem_cons.mp hp with rfl | hp2
      · simp [runFieldValidate, List.append_eq_nil, hne]
      · have hrest := ih hp2
        simp only [runFieldValidate, ne_eq, List.append_eq_nil, not_and]
        exact fun _ => hrest

/-- Every event of the field validation stage is a field `validateInput`
invocation. -/
theorem runFieldValidate_events (fields : List (String × (ResolvedData → List String)))
    (d : ResolvedData) (e : HookEvent) (he : e ∈ (runFieldValidate fields d).2) :
    ∃ f, e = .fieldValidateInput f := by
  induction fields with
  | nil => cases he
  | cons q rest ih =>
      simp only [runFieldValidate] at he
      rcases List.mem_cons.mp he with rfl | he2
      · exact ⟨q.1, rfl⟩
      · exact ih he2

/-- When some field `validateDelete` hook records a message, the field
delete-validation stage accumulates a non-empty message list. -/
theorem runFieldValidateDelete_ne_nil (fields : List (String × (Item → List String)))
    (it : Item) (p : String × (Item → List String))
    (hp : p ∈ fields) (hne : p.2 it ≠ []) :
    (runFieldValidateDelete fields it).1 ≠ [] := by
  induction fields with
  | nil => cases hp
  | cons q rest ih =>
      rcases List.mem_cons.mp hp with rfl | hp2
      · simp [runFieldValidateDelete, List.append_eq_nil, hne]
      · have hrest := ih hp2
        simp only [runFieldValidateDelete, ne_eq, List.append_eq_nil, not_and]
        exact fun _ => hrest

/-- Every event of the field delete-validation stage is a field
`validateDelete` invocation. -/
theorem runFieldValidateDelete_events (fields : List (String × (Item → List String)))
    (it : Item) (e : HookEvent) (he : e ∈ (runFieldValidateDelete fields it).2) :
    ∃ f, e = .fieldValidateDelete f := by
  induction fields with
  | nil => cases he
  | cons q rest ih =>
      simp only [runFieldValidateDelete] at he
      rcases List.mem_cons.mp he with rfl | he2
      · exact ⟨q.1, rfl⟩
      · exact ih he2

/-- A create / update pipeline run whose validation stage accumulated
messages fails with exactly those messages and emits only validation
events. -/
theorem runChangePipeline_failure (cfg : ChangeValidationCfg) (d : ResolvedData)
    (hne : changeValidationMessages cfg d ≠ []) :
    runChangePipeline cfg d =
      (.validationFailure (changeValidationMessages cfg d),
        (runFieldValidate cfg.fields d).2 ++ [.listValidateInput]) := by
  rcases hm : changeValidationMessages cfg d with - | ⟨m, ms⟩
  · exact absurd hm hne
  · simp [runChangePipeline, hm]

/-- A delete pipeline run whose validation stage accumulated messages fails
with exactly those messages and emits only validation events. -/
theorem runDeletePipeline_failure (cfg : DeleteValidationCfg) (it : Item)
    (hne : deleteValidationMessages cfg it ≠ []) :
    runDeletePipeline cfg it =
      (.validationFailure (deleteValidationMessages cfg it),
        (runFieldValidateDelete cfg.fields it).2 ++ [.listValidateDelete]) := by
  rcases hm : deleteValidationMessages cfg it with - | ⟨m, ms⟩
  · exact absurd hm hne
  · simp [runDeletePipeline, hm]

/-- C7: if any field-level or list-level `validateInput` (resp.
`validateDelete`) hook records at least one error message, the operation
fails as a whole with a `ValidationFailureError` carrying all accumulated
messages, persistence does not occur, and no `beforeChange` / `afterChange`
(resp. `beforeDelete` / `afterDelete`) hook is invoked for that item. -/
theorem validation_failure_aborts_pipeline (ccfg : ChangeValidationCfg)
    (d : ResolvedData) (dcfg : DeleteValidationCfg) (it : Item) :
    (((∃ p ∈ ccfg.fields, p.2 d ≠ []) ∨ ccfg.listValidate d ≠ []) →
      (runChangePipeline ccfg d).1 =
        .validationFailure (changeValidationMessages ccfg d) ∧
      HookEvent.persist ∉ (runChangePipeline ccfg d).2 ∧
      HookEvent.listBeforeChange ∉ (runChangePipeline ccfg d).2 ∧
      HookEvent.listAfterChange ∉ (runChangePipeline ccfg d).2 ∧
      (∀ f, HookEvent.fieldBeforeChange f ∉ (runChangePipeline ccfg d).2 ∧
        HookEvent.fieldAfterChange f ∉ (runChangePipeline ccfg d).2)) ∧
    (((∃ p ∈ dcfg.fields, p.2 it ≠ []) ∨ dcfg.listValidate it ≠ []) →
      (runDeletePipeline dcfg it).1 =
        .validationFailure (deleteValidationMessages dcfg it) ∧
      HookEvent.deletePersist ∉ (runDeletePipeline dcfg it).2 ∧
      HookEvent.listBeforeDelete ∉ (runDeletePipeline dcfg it).2 ∧
      HookEvent.listAfterDelete ∉ (runDeletePipeline dcfg it).2 ∧
      (∀ f, HookEvent.fieldBeforeDelete f ∉ (runDeletePipeline dcfg it).2 ∧
        HookEvent.fieldAfterDelete f ∉ (runDeletePipeline dcfg it).2)) := by
  constructor
  · intro hrec
    have hne : changeValidationMessages ccfg d ≠ [] := by
      rcases hrec with ⟨p, hp, hpne⟩ | hlist
      · simp only [changeValidationMessages, ne_eq, List.append_eq_nil]
        intro hcontra
        exact runFieldValidate_ne_nil ccfg.fields d p hp hpne hcontra.1
      · simp only [changeValidationMessages, ne_eq, List.append_eq_nil]
        intro hcontra
        exact hlist hcontra.2
    rw [runChangePipeline_failure ccfg d hne]
    have honly : ∀ e ∈ (runFieldValidate ccfg.fields d).2 ++ [HookEvent.listValidateInput],
        (∃ f, e = .fieldValidateInput f) ∨ e = .listValidateInput := by
      intro e he
      rcases List.mem_append.mp he with he | he
      · exact Or.inl (runFieldValidate_events ccfg.fields d e he)
      · exact Or.inr (List.mem_singleton.mp he)
    refine ⟨rfl, ?_, ?_, ?_, fun f => ⟨?_, ?_⟩⟩ <;>
      { intro hmem
        rcases honly _ hmem with ⟨f, hf⟩ | hf <;> simp at hf }
  · intro hrec
    have hne : deleteValidationMessages dcfg it ≠ [] := by
      rcases hrec with ⟨p, hp, hpne⟩ | hlist
      · simp only [deleteValidationMessages, ne_eq, List.append_eq_nil]
        intro hcontra
        exact runFieldValidateDelete_ne_nil dcfg.fields it p hp hpne hcontra.1
      · simp only [deleteValidationMessages, ne_eq, List.append_eq_nil]
        intro hcontra
        exact hlist hcontra.2
    rw [runDeletePipeline_failure dcfg it hne]
    have honly : ∀ e ∈ (runFieldValidateDelete dcfg.fields it).2 ++ [HookEvent.listValidateDelete],
        (∃ f, e = .fieldValidateDelete f) ∨ e = .listValidateDelete := by
      intro e he
      rcases List.mem_append.mp he with he | he
      · exact Or.inl (runFieldValidateDelete_events dcfg.fields it e he)
      · exact Or.inr (List.mem_singleton.mp he)
    refine ⟨rfl, ?_, ?_, ?_, fun f => ⟨?_, ?_⟩⟩ <;>
      { intro hmem
        rcases honly _ hmem with ⟨f, hf⟩ | hf <;> simp at hf }

/-- Witness for C7: a single required-field style `validateInput` hook that
records one message makes the create pipeline fail with that message while
its trace holds no persist event. -/
theorem validation_failure_aborts_pipeline_witness :
    (runChangePipeline ⟨[("testField", fun _ => ["Required field testField is null or undefined."])], fun _ => []⟩ []).1 =
      .validationFailure
        (changeValidationMessages
          ⟨[("testField", fun _ => ["Required field testField is null or undefined."])], fun _ => []⟩ []) ∧
    HookEvent.persist ∉
      (runChangePipeline ⟨[("testField", fun _ => ["Required field testField is null or undefined."])], fun _ => []⟩ []).2 :=
  ⟨((validation_failure_aborts_pipeline
      ⟨[("testField", fun _ => ["Required field testField is null or undefined."])], fun _ => []⟩ []
      ⟨[], fun _ => []⟩ ⟨1, "a", "pw", none, none, none⟩).1
      (Or.inl ⟨("testField", fun _ => ["Required field testField is null or undefined."]),
        by simp, by simp⟩)).1,
   ((validation_failure_aborts_pipeline
      ⟨[("testField", fun _ => ["Required field testField is null or undefined."])], fun _ => []⟩ []
      ⟨[], fun _ => []⟩ ⟨1, "a", "pw", none, none, none⟩).1
      (Or.inl ⟨("testField", fun _ => ["Required field testField is null or undefined."]),
        by simp, by simp⟩)).2.1⟩

/-- C8, counterexample: the skip check of generateAdminUI.ts compares the
normalized bare `outputPath` of a framework file against the set of
normalized full output filenames (`projectAdminPath` joined with the user
file's `outputPath`), so for the non-empty target directory "admin" a
framework file with the same output path as a user-supplied file is NOT
skipped: both writes appear in the trace and the framework file's contents
overwrite the user's. -/
theorem generateAdminUI_overwrites_user_file :
    FsOp.outputFile ["admin", "pages", "index.js"] "user content" ∈
      generateAdminUITrace ["admin"]
        [⟨["pages", "index.js"], "user content"⟩]
        [⟨["pages", "index.js"], "framework content"⟩] [] ∧
    applyOps (fun _ => none)
        (generateAdminUITrace ["admin"]
          [⟨["pages", "index.js"], "user content"⟩]
          [⟨["pages", "index.js"], "framework content"⟩] [])
        ["admin", "pages", "index.js"] = some "framework content" := by
  constructor
  · decide
  · decide

/-- A file present after a sequence of filesystem operations was either
already present before or written by one of the operations. -/
theorem applyOps_lookup (ops : List FsOp) (fs : FsState) (p : FsPath)
    (c : String) (h : applyOps fs ops p = some c) :
    fs p = some c ∨ FsOp.outputFile p c ∈ ops := by
  induction ops generalizing fs with
  | nil => exact Or.inl h
  | cons op rest ih =>
      rcases ih (applyOp fs op) h with h1 | h1
      · cases op with
        | remove base =>
            simp only [applyOp] at h1
            by_cases hu : underPath base p
            · rw [if_pos hu] at h1
              cases h1
            · rw [if_neg hu] at h1
              exact Or.inl h1
        | outputFile q d =>
            simp only [applyOp] at h1
            by_cases hq : p = q
            · rw [if_pos hq] at h1
              cases h1
              exact Or.inr (by rw [hq]; exact List.mem_cons_self _ _)
            · rw [if_neg hq] at h1
              exact Or.inl h1
      · exact Or.inr (List.mem_cons_of_mem _ h1)

/-- C9: generateAdminUI recursively deletes the whole target directory
before writing any file — the remove is the head of the operation trace —
and no file under the target directory survives the call unless it was
written (regenerated) by the call itself. -/
theorem generateAdminUI_removes_before_writing (projectAdminPath : FsPath)
    (userFiles frameworkFiles : List AdminFile) (userPageFiles : List FsPath)
    (fs0 : FsState) (p : FsPath) (c : String)
    (hunder : underPath projectAdminPath p = true)
    (hsurv : applyOps fs0
        (generateAdminUITrace projectAdminPath userFiles frameworkFiles userPageFiles)
        p = some c) :
    (generateAdminUITrace projectAdminPath userFiles frameworkFiles userPageFiles).head? =
      some (.remove projectAdminPath) ∧
    FsOp.outputFile p c ∈
      generateAdminUITrace projectAdminPath userFiles frameworkFiles userPageFiles := by
  refine ⟨rfl, ?_⟩
  have hstep :
      applyOps (applyOp fs0 (.remove projectAdminPath))
        ((generateAdminUITrace projectAdminPath userFiles frameworkFiles userPageFiles).tail)
        p = some c := hsurv
  rcases applyOps_lookup _ _ p c hstep with h1 | h1
  · simp only [applyOp, hunder, if_pos] at h1
    cases h1
  · exact List.mem_cons_of_mem _ h1

/-- Witness for C9: a stale file under the target directory does not
survive the call, and the surviving user file at the same root was written
by the trace. -/
theorem generateAdminUI_removes_before_writing_witness :
    underPath ["admin"] ["admin", "a.js"] = true ∧
    applyOps
        (fun p => if p = ["admin", "stale.txt"] then some "stale" else none)
        (generateAdminUITrace ["admin"] [⟨["a.js"], "user page"⟩] [] [])
        ["admin", "a.js"] = some "user page" ∧
    FsOp.outputFile ["admin", "a.js"] "user page" ∈
      generateAdminUITrace ["admin"] [⟨["a.js"], "user page"⟩] [] [] :=
  ⟨by decide, by decide,
    (generateAdminUI_removes_before_writing ["admin"] [⟨["a.js"], "user page"⟩] [] []
      (fun p => if p = ["admin", "stale.txt"] then some "stale" else none)
      ["admin", "a.js"] "user page" (by decide) (by decide)).2⟩

end Keystone
